import Mathlib

/-!
Shallow embedding of the provider add/edit input layer of cc-switch-cli
(`src/src-tauri/src/cli/commands/provider_input.rs` and
`src/src-tauri/src/cli/interactive/utils.rs`), with theorems checking the
specification's claims about identifier generation, field merging, secret
masking, Gemini auth-mode detection, numeric parsing and cancellation
handling.

Modelling conventions:
* Rust `String`/`&str` values are Lean `String`s (a list of unicode
  scalar values).  Byte-level operations (`str::len`, byte slicing in
  `mask_api_key`) are modelled through `Char.utf8Size`.
* `str::trim` and `str::to_lowercase` are modelled by `rustTrim` and
  `rustToLower`; the character classes (`is_whitespace`, `is_alphanumeric`)
  are modelled by `Char.isWhitespace` / `Char.isAlphanum`, used uniformly
  on both the code side and the spec side of every comparison.
* `serde_json::Value` is modelled by `JValue` (strings and objects are the
  only shapes these functions build or inspect); an object is an
  association list and lookup takes the first binding of a key.
* Interactive prompts: a function that prompts the user is modelled as a
  function of the raw strings the prompts would return; the
  error/cancellation behaviour of a prompt call itself is modelled by
  passing an `Except InquireError` result where a claim is about it.
* A Rust panic is modelled as `Option.none` (see `mask_api_key`).
-/

namespace CCSwitch

/-- The error type of the application (`crate::error::AppError`); only the
variants these functions construct are modelled. -/
inductive AppError where
  | invalidInput (msg : String)
  | message (msg : String)
deriving DecidableEq

/-- `serde_json::Value` restricted to the shapes the embedded functions
build and inspect: strings and (association-list) objects. -/
inductive JValue where
  | str (s : String)
  | obj (fields : List (String × JValue))

/-- `Value::get(key)` on an object (`None` on anything else): the first
binding of `key`. -/
def JValue.get (v : JValue) (key : String) : Option JValue :=
  match v with
  | .obj fs => (fs.find? (fun p => p.1 == key)).map Prod.snd
  | _ => none

/-- `Value::as_str()`. -/
def JValue.asStr : JValue → Option String
  | .str s => some s
  | _ => none

/-- `Value::as_object()`. -/
def JValue.asObj : JValue → Option (List (String × JValue))
  | .obj fs => some fs
  | _ => none

/-- The chain `payload.get("env").and_then(|e| e.get(key)).and_then(|v| v.as_str())`
used throughout `provider_input.rs` to read one env entry of a settings
payload. -/
def envGet (payload : JValue) (key : String) : Option String :=
  ((payload.get "env").bind (fun e => JValue.get e key)).bind JValue.asStr

/-- Rust `str::trim`: drop leading and trailing whitespace. -/
def rustTrim (s : String) : String :=
  (((s.data.dropWhile Char.isWhitespace).reverse.dropWhile Char.isWhitespace).reverse).asString

/-- Rust `str::to_lowercase`, modelled characterwise. -/
def rustToLower (s : String) : String :=
  (s.data.map Char.toLower).asString

/-! ## ProfileIdentity: `generate_provider_id` -/

/-- The character mapping of `generate_provider_id`'s normalization step,
written exactly as the source's three-way branch (alphanumeric, `-` and `_`
kept; whitespace mapped to `-`; everything else mapped to `-`). -/
def normalizeChar (c : Char) : Char :=
  if c.isAlphanum || c = '-' || c = '_' then c
  else if c.isWhitespace then '-'
  else '-'

/-- Rust `str::trim_matches('-')`: drop leading and trailing `-`. -/
def trimDashes (cs : List Char) : List Char :=
  ((cs.dropWhile (fun c => c = '-')).reverse.dropWhile (fun c => c = '-')).reverse

/-- The `base_id` computation of `generate_provider_id`:
`name.to_lowercase().chars().map(…).collect::<String>().trim_matches('-')`. -/
def kebabBase (name : String) : String :=
  (trimDashes ((rustToLower name).data.map normalizeChar)).asString

/-- Decimal rendering of a `usize` counter, as `format!("{}", n)` prints it. -/
def natRepr (n : Nat) : String :=
  if n = 0 then "0" else ((Nat.digits 10 n).reverse.map Nat.digitChar).asString

/-- One candidate of the suffix search: `format!("{}-{}", base_id, counter)`. -/
def candidateId (base : String) (counter : Nat) : String :=
  base ++ "-" ++ natRepr counter

theorem string_length_append (s t : String) : (s ++ t).length = s.length + t.length := by
  cases s with
  | mk a =>
    cases t with
    | mk b =>
      show (a ++ b).length = a.length + b.length
      exact List.length_append a b

theorem mem_le_foldr_max {l : List Nat} {x : Nat} (h : x ∈ l) :
    x ≤ l.foldr max 0 := by
  induction l with
  | nil => cases h
  | cons a t ih =>
    rcases List.mem_cons.mp h with h' | h'
    · subst h'; exact le_max_left _ _
    · exact le_trans (ih h') (le_max_right _ _)

theorem natRepr_pow_length (k : Nat) : (natRepr (10 ^ k)).length = k + 1 := by
  have h0 : (10 : ℕ) ^ k ≠ 0 := pow_ne_zero _ (by norm_num)
  unfold natRepr
  rw [if_neg h0]
  rw [List.length_asString, List.length_map, List.length_reverse]
  rw [Nat.digits_len 10 _ (by norm_num) h0, Nat.log_pow (by norm_num)]

/-- The suffix search of `generate_provider_id` terminates: some counter's
candidate is outside any finite list of existing ids (a candidate longer
than every element of the list cannot be a member). -/
theorem exists_free_candidate (base : String) (existing : List String) :
    ∃ n, candidateId base (n + 1) ∉ existing := by
  classical
  set L := (existing.map String.length).foldr max 0 with hL
  have hpow : 1 ≤ 10 ^ (L + 1) := Nat.one_le_pow _ _ (by norm_num)
  refine ⟨10 ^ (L + 1) - 1, fun hmem => ?_⟩
  have hn : 10 ^ (L + 1) - 1 + 1 = 10 ^ (L + 1) := Nat.sub_add_cancel hpow
  have hmem_len : (candidateId base (10 ^ (L + 1) - 1 + 1)).length ≤ L := by
    exact mem_le_foldr_max (List.mem_map_of_mem String.length hmem)
  have hlen : (candidateId base (10 ^ (L + 1) - 1 + 1)).length
      = base.length + 1 + (L + 2) := by
    rw [hn]
    unfold candidateId
    rw [string_length_append, string_length_append, natRepr_pow_length]
    rfl
  omega

/-- The uniqueness search of `generate_provider_id`: return `base_id` when
unused, otherwise the first candidate `base_id-1`, `base_id-2`, … not in
`existing_ids`.  The unbounded `loop` of the source is the least counter
whose candidate is free (`Nat.find`), which `exists_free_candidate` shows
to exist. -/
def id_search (base_id : String) (existing_ids : List String) : String :=
  if base_id ∈ existing_ids then
    candidateId base_id (Nat.find (exists_free_candidate base_id existing_ids) + 1)
  else
    base_id

/-- `generate_provider_id` (`provider_input.rs:37-67`): kebab-case the name,
return it when unused, otherwise append `-1`, `-2`, … until unique. -/
def generate_provider_id (name : String) (existing_ids : List String) : String :=
  id_search (kebabBase name) existing_ids

/-- The spec's character mapping for id normalization (§4.2 step 1): keep
alphanumerics, `-` and `_`; map every other character (whitespace included)
to `-`. -/
def specMapChar (c : Char) : Char :=
  if c.isAlphanum || c = '-' || c = '_' then c else '-'

/-- The spec's normalization (§4.2 step 1): lowercase, map characters, trim
leading/trailing `-`. -/
def spec_normalize (name : String) : String :=
  (trimDashes ((rustToLower name).data.map specMapChar)).asString

/-- `generate_id` as §4.2 of the spec words it, with the empty-base rule the
claim states: an empty normalized string is replaced by the literal base
`"-"` before the uniqueness search. -/
def generate_id_spec (name : String) (existing_ids : List String) : String :=
  let base0 := spec_normalize name
  id_search (if base0 = "" then "-" else base0) existing_ids

/-! ## SecretMasking: `mask_api_key`

Rust strings are UTF-8: `key.len()` is the byte count and `&key[..4]` /
`&key[key.len()-4..]` are byte slices that panic when the cut position is
not a character boundary.  `byteLen`, `takeBytes` and `dropBytes` model
this byte-level view over a list of characters; a panic is `none`. -/

/-- `str::len`: the UTF-8 byte count. -/
def byteLen (s : String) : Nat :=
  (s.data.map Char.utf8Size).sum

/-- The characters making up the first `n` bytes of a string; `none` when
byte position `n` falls inside a character (the slice `&s[..n]` panics). -/
def takeBytes : List Char → Nat → Option (List Char)
  | _, 0 => some []
  | [], _ + 1 => none
  | c :: cs, n + 1 =>
    if c.utf8Size ≤ n + 1 then (takeBytes cs (n + 1 - c.utf8Size)).map (fun l => c :: l)
    else none

/-- The characters after the first `n` bytes of a string; `none` when byte
position `n` falls inside a character (the slice `&s[n..]` panics). -/
def dropBytes : List Char → Nat → Option (List Char)
  | cs, 0 => some cs
  | [], _ + 1 => none
  | c :: cs, n + 1 =>
    if c.utf8Size ≤ n + 1 then dropBytes cs (n + 1 - c.utf8Size) else none

/-- `mask_api_key` (`provider_input.rs:632-637`): `"***"` when the byte
length is at most 8, otherwise `format!("{}...{}", &key[..4], &key[key.len()-4..])`;
`none` models the byte-slice panic at a non-boundary position. -/
def mask_api_key (key : String) : Option String :=
  if byteLen key ≤ 8 then some "***"
  else
    match takeBytes key.data 4, dropBytes key.data (byteLen key - 4) with
    | some p, some q => some (p.asString ++ "..." ++ q.asString)
    | _, _ => none

/-! ## The prompt layer

A `Text::new(…).prompt()` call returns `Result<String, InquireError>`; the
initial value / placeholder only pre-fills the terminal and does not change
the returned value, so a prompt is modelled by the string (or
`Except InquireError String` result) it returns. -/

/-- `inquire::error::InquireError`, reduced to the variants
`handle_inquire` distinguishes. -/
inductive InquireError where
  | operationCanceled
  | operationInterrupted
  | other (msg : String)
deriving DecidableEq

/-- Modelled from the spec: the `Display` rendering (`e.to_string()`) of an
`InquireError`, which lives in the external `inquire` crate; only its value
as an opaque message matters here. -/
def inquireErrMsg : InquireError → String
  | .operationCanceled => "Operation was canceled by the user"
  | .operationInterrupted => "Operation was interrupted by the user"
  | .other msg => msg

/-- Modelled from the spec: `texts::input_failed_error` of the i18n module
(not under `src/`); an opaque message wrapper. -/
def input_failed_error (msg : String) : String :=
  "Input failed: " ++ msg

/-- Modelled from the spec: `texts::provider_name_empty_error` of the i18n
module (not under `src/`). -/
def provider_name_empty_error : String :=
  "Provider name must not be empty"

/-- `.map_err(|e| AppError::Message(texts::input_failed_error(&e.to_string())))`,
the error translation every prompt call of `provider_input.rs` applies. -/
def map_input_err {α : Type} (r : Except InquireError α) : Except AppError α :=
  Except.mapError (fun e => AppError.message (input_failed_error (inquireErrMsg e))) r

/-- `handle_inquire` (`interactive/utils.rs:29-35`): success wraps in
`Some`, cancellation and interruption become `Ok(None)`, any other prompt
error becomes `AppError::Message`. -/
def handle_inquire {α : Type} (result : Except InquireError α) : Except AppError (Option α) :=
  match result with
  | .ok value => .ok (some value)
  | .error .operationCanceled => .ok none
  | .error .operationInterrupted => .ok none
  | .error e => .error (.message (inquireErrMsg e))

/-- `prompt_basic_fields` (`provider_input.rs:70-116`), as a function of the
two prompt results (name, website url): prompt errors map to
`AppError::Message`; the trimmed name must be non-empty or the operation
fails with `InvalidInput`; a blank website url becomes `None`, a non-blank
one is stored trimmed. -/
def prompt_basic_fields (nameRes websiteRes : Except InquireError String) :
    Except AppError (String × Option String) :=
  match map_input_err nameRes with
  | .error e => .error e
  | .ok rawName =>
    let name := rustTrim rawName
    if name = "" then .error (.invalidInput provider_name_empty_error)
    else
      match map_input_err websiteRes with
      | .error e => .error e
      | .ok rawWebsite =>
        .ok (name, if rustTrim rawWebsite = "" then none else some (rustTrim rawWebsite))

/-- `prompt_model_field` (`provider_input.rs:138-180`), as a function of the
prompt's returned string: the existing value only pre-fills the prompt;
blank input yields `None` (clear on edit, do-not-write on creation), and
non-blank input is stored trimmed. -/
def prompt_model_field (env_key : String) (current : Option JValue) (input : String) :
    Option String :=
  let existing_value :=
    ((current.bind (fun v => v.get "env")).bind (fun e => JValue.get e env_key)).bind JValue.asStr
  if rustTrim input = "" then
    match existing_value with
    | some _ => none
    | none => none
  else some (rustTrim input)

/-- The prompt results a run of `prompt_claude_config` consumes: api key,
base url, the configure-models confirmation, and the four model prompts
(only read when the confirmation is accepted). -/
structure ClaudeInputs where
  apiKey : String
  baseUrl : String
  configModels : Bool
  modelInput : String
  haikuInput : String
  sonnetInput : String
  opusInput : String

/-- A conditional `env.insert(key, json!(value))`: one binding when the
model field produced a value, nothing otherwise. -/
def optEntry (key : String) : Option String → List (String × JValue)
  | some v => [(key, JValue.str v)]
  | none => []

/-- The `env` map `prompt_claude_config` builds (`provider_input.rs:233-280`):
always the trimmed api key and base url; when the configure-models step is
accepted, additionally the four model entries whose prompts returned a
value. -/
def claude_env (current : Option JValue) (i : ClaudeInputs) : List (String × JValue) :=
  let base :=
    [("ANTHROPIC_AUTH_TOKEN", JValue.str (rustTrim i.apiKey)),
     ("ANTHROPIC_BASE_URL", JValue.str (rustTrim i.baseUrl))]
  if i.configModels then
    base
      ++ optEntry "ANTHROPIC_MODEL" (prompt_model_field "ANTHROPIC_MODEL" current i.modelInput)
      ++ optEntry "ANTHROPIC_DEFAULT_HAIKU_MODEL"
          (prompt_model_field "ANTHROPIC_DEFAULT_HAIKU_MODEL" current i.haikuInput)
      ++ optEntry "ANTHROPIC_DEFAULT_SONNET_MODEL"
          (prompt_model_field "ANTHROPIC_DEFAULT_SONNET_MODEL" current i.sonnetInput)
      ++ optEntry "ANTHROPIC_DEFAULT_OPUS_MODEL"
          (prompt_model_field "ANTHROPIC_DEFAULT_OPUS_MODEL" current i.opusInput)
  else base

/-- `prompt_claude_config` (`provider_input.rs:183-283`): the returned
payload is `json!({ "env": env })`, rebuilt from the prompted fields — the
existing payload is only read to pre-fill prompts. -/
def prompt_claude_config (current : Option JValue) (i : ClaudeInputs) : JValue :=
  JValue.obj [("env", JValue.obj (claude_env current i))]

/-- The six env keys `prompt_claude_config` can write. -/
def claudeEnvKeys : List String :=
  ["ANTHROPIC_AUTH_TOKEN", "ANTHROPIC_BASE_URL", "ANTHROPIC_MODEL",
   "ANTHROPIC_DEFAULT_HAIKU_MODEL", "ANTHROPIC_DEFAULT_SONNET_MODEL",
   "ANTHROPIC_DEFAULT_OPUS_MODEL"]

/-- `OptionalFields` (`provider_input.rs:14-21`). -/
structure OptionalFields where
  notes : Option String
  icon : Option String
  icon_color : Option String
  sort_index : Option Nat

/-- Modelled from the spec: `texts::invalid_sort_index_number` of the i18n
module (not under `src/`). -/
def invalid_sort_index_number : String :=
  "Sort index must be a number"

/-- The numeric value of a list of decimal digit characters, most
significant first. -/
def decimal_value (cs : List Char) : Nat :=
  cs.foldl (fun acc c => acc * 10 + (c.toNat - '0'.toNat)) 0

/-- Rust `str::parse::<usize>()` on a 64-bit target: an optional leading
`'+'`, then one or more decimal digits whose value fits in a `usize`
(`< 2^64`).  Rust checks overflow digit by digit with checked arithmetic;
since appending a digit never decreases the value, that is the same
acceptance condition as the final bound used here. -/
def rust_parse_usize (s : String) : Option Nat :=
  let cs := if s.data.head? = some '+' then s.data.tail else s.data
  if cs.isEmpty then none
  else if cs.all Char.isDigit then
    if decimal_value cs < 2 ^ 64 then some (decimal_value cs) else none
  else none

/-- `prompt_optional_fields` (`provider_input.rs:491-537`), as a function of
the notes and sort-index prompt results: blank notes become `None`,
non-blank notes are stored trimmed; a blank sort index is `None`, a
non-blank one must parse as a `usize` or the operation fails with
`InvalidInput`; `icon` and `icon_color` are never populated. -/
def prompt_optional_fields (notesRes sortRes : Except InquireError String) :
    Except AppError OptionalFields :=
  match map_input_err notesRes with
  | .error e => .error e
  | .ok rawNotes =>
    let notes := if rustTrim rawNotes = "" then none else some (rustTrim rawNotes)
    match map_input_err sortRes with
    | .error e => .error e
    | .ok rawSort =>
      if rustTrim rawSort = "" then
        .ok { notes := notes, icon := none, icon_color := none, sort_index := none }
      else
        match rust_parse_usize (rustTrim rawSort) with
        | some n => .ok { notes := notes, icon := none, icon_color := none, sort_index := some n }
        | none => .error (.invalidInput invalid_sort_index_number)

/-! ## Gemini auth-mode detection -/

/-- Whether `pat` occurs as a contiguous run of `l` (Rust `str::contains`). -/
def containsSub (l pat : List Char) : Bool :=
  match l with
  | [] => pat.isEmpty
  | c :: t => pat.isPrefixOf (c :: t) || containsSub t pat

/-- Rust `str::contains(pat)`. -/
def strContains (s pat : String) : Bool :=
  containsSub s.data pat.data

/-- `detect_gemini_auth_type` (`provider_input.rs:613-629`): with a
`GEMINI_API_KEY` entry present, `"packycode"` when the
`GOOGLE_GEMINI_BASE_URL` string contains the marker `"packycode"`, else
`"generic"`; without a key, `"oauth"` when the env mapping is absent, empty
or not an object, and `None` (indeterminate) otherwise. -/
def detect_gemini_auth_type (value : Option JValue) : Option String :=
  match value.bind (fun v => v.get "env") with
  | some env =>
    if (JValue.get env "GEMINI_API_KEY").isSome then
      if (((JValue.get env "GOOGLE_GEMINI_BASE_URL").bind JValue.asStr).map
            (fun s => strContains s "packycode")).getD false then
        some "packycode"
      else
        some "generic"
    else
      if (env.asObj.map List.isEmpty).getD true then some "oauth" else none
  | none => some "oauth"

/-- The starting-cursor computation of `prompt_gemini_config`
(`provider_input.rs:365-370`): oauth ↦ 0, packycode ↦ 1, generic ↦ 2, and
index 1 (the hosted-gateway option) as the presentation default for an
indeterminate detection. -/
def gemini_default_index (t : Option String) : Nat :=
  match t with
  | some "oauth" => 0
  | some "packycode" => 1
  | some "generic" => 2
  | _ => 1

/-- The key-presence test of the detection rule:
`env.get("GEMINI_API_KEY").is_some()` over the payload. -/
def gemini_key_present (value : Option JValue) : Bool :=
  ((value.bind (fun v => v.get "env")).bind (fun e => JValue.get e "GEMINI_API_KEY")).isSome

/-- The base-url string of the payload, when present:
`env.get("GOOGLE_GEMINI_BASE_URL").and_then(|v| v.as_str())`. -/
def gemini_base_url (value : Option JValue) : Option String :=
  ((value.bind (fun v => v.get "env")).bind
    (fun e => JValue.get e "GOOGLE_GEMINI_BASE_URL")).bind JValue.asStr

/-! ## Concrete inputs used by counterexamples and witnesses -/

/-- An existing Claude payload whose env also carries a model override. -/
def c1_current : JValue :=
  JValue.obj [("env", JValue.obj
    [("ANTHROPIC_AUTH_TOKEN", JValue.str "sk-tok"),
     ("ANTHROPIC_BASE_URL", JValue.str "https://api.example"),
     ("ANTHROPIC_MODEL", JValue.str "claude-x")])]

/-- An edit session over `c1_current` that re-submits the api key and base
url at their pre-filled values and declines the configure-models step (the
confirmation's default), so the four model prompts are never shown. -/
def c1_inputs : ClaudeInputs :=
  { apiKey := "sk-tok", baseUrl := "https://api.example", configModels := false,
    modelInput := "", haikuInput := "", sonnetInput := "", opusInput := "" }

/-- An existing Claude payload with all four model overrides set. -/
def c1w_current : JValue :=
  JValue.obj [("env", JValue.obj
    [("ANTHROPIC_AUTH_TOKEN", JValue.str "sk-tok"),
     ("ANTHROPIC_BASE_URL", JValue.str "https://api.example"),
     ("ANTHROPIC_MODEL", JValue.str "m-default"),
     ("ANTHROPIC_DEFAULT_HAIKU_MODEL", JValue.str "m-haiku"),
     ("ANTHROPIC_DEFAULT_SONNET_MODEL", JValue.str "m-sonnet"),
     ("ANTHROPIC_DEFAULT_OPUS_MODEL", JValue.str "m-opus")])]

/-- An edit session over `c1w_current` that accepts the configure-models
step and re-submits every field at its pre-filled value. -/
def c1w_inputs : ClaudeInputs :=
  { apiKey := "sk-tok", baseUrl := "https://api.example", configModels := true,
    modelInput := "m-default", haikuInput := "m-haiku", sonnetInput := "m-sonnet",
    opusInput := "m-opus" }

/-- An existing payload whose stored model override carries surrounding
whitespace (as another producer of the shared store may have written it). -/
def c6_current : JValue :=
  JValue.obj [("env", JValue.obj [("ANTHROPIC_MODEL", JValue.str " x ")])]

/-- A Claude session submitting a blank api key and a whitespace-only base
url. -/
def c9_inputs : ClaudeInputs :=
  { apiKey := "", baseUrl := "  ", configModels := false,
    modelInput := "", haikuInput := "", sonnetInput := "", opusInput := "" }

/-- A Gemini payload in the hosted-gateway shape: key present, base url
containing the `"packycode"` marker. -/
def c7_value : Option JValue :=
  some (JValue.obj [("env", JValue.obj
    [("GEMINI_API_KEY", JValue.str "pk-x"),
     ("GOOGLE_GEMINI_BASE_URL", JValue.str "https://packycode.com/api")])])

/-! ## Theorems: the id-generation claims -/

theorem specMapChar_eq_normalizeChar : specMapChar = normalizeChar := by
  funext c
  unfold specMapChar normalizeChar
  by_cases h : c.isAlphanum || c = '-' || c = '_'
  · rw [if_pos h, if_pos h]
  · rw [if_neg h, if_neg h]
    by_cases hw : c.isWhitespace
    · rw [if_pos hw]
    · rw [if_neg hw]

theorem spec_normalize_eq_kebabBase : spec_normalize = kebabBase := by
  funext name
  unfold spec_normalize kebabBase
  rw [specMapChar_eq_normalizeChar]

/-- C2: for every name and every finite set of existing ids,
`generate_provider_id` returns an id that is not a member of the existing-id
list, and identical `(name, existing ids)` inputs always yield the same id. -/
theorem generate_provider_id_fresh_deterministic :
    ∀ (name : String) (ids : List String),
      generate_provider_id name ids ∉ ids ∧
      ∀ (name₂ : String) (ids₂ : List String),
        name = name₂ → ids = ids₂ →
        generate_provider_id name ids = generate_provider_id name₂ ids₂ := by
  intro name ids
  constructor
  · simp only [generate_provider_id, id_search]
    split
    · exact Nat.find_spec (exists_free_candidate (kebabBase name) ids)
    · next h => exact h
  · intro name₂ ids₂ h1 h2
    subst h1
    subst h2
    rfl

/-- Witness for C2 at a concrete input. -/
theorem generate_provider_id_fresh_witness :
    generate_provider_id "My API" ["other-id"] ∉ ["other-id"] ∧
    generate_provider_id "My API" ["other-id"] = generate_provider_id "My API" ["other-id"] :=
  ⟨(generate_provider_id_fresh_deterministic "My API" ["other-id"]).1,
   (generate_provider_id_fresh_deterministic "My API" ["other-id"]).2 "My API" ["other-id"] rfl rfl⟩

/-- C3 counterexample: the code has no special case for an empty normalized
name.  `generate_provider_id "" []` returns the empty id `""`, while the
claim's algorithm (literal base `"-"` before the uniqueness search, never an
empty id) returns `"-"`. -/
theorem generate_provider_id_empty_name_cex :
    generate_provider_id "" [] = "" ∧ generate_id_spec "" [] = "-" := by
  constructor
  · rfl
  · rfl

/-- C3 (amended): `generate_provider_id` follows the spec's algorithm
(lowercase, keep alphanumeric/`-`/`_`, map everything else to `-`, trim
`-`, return when unused, else append `-1`, `-2`, … until unique) whenever
the normalized name is non-empty; when the normalized name is empty the
base is used as-is, and the empty id itself is returned whenever `""` is
unused among the existing ids. -/
theorem generate_provider_id_matches_spec_algorithm :
    (∀ (name : String) (ids : List String), spec_normalize name ≠ "" →
       generate_provider_id name ids = generate_id_spec name ids) ∧
    (∀ (name : String) (ids : List String), spec_normalize name = "" → "" ∉ ids →
       generate_provider_id name ids = "") := by
  constructor
  · intro name ids h
    simp only [generate_provider_id, generate_id_spec, spec_normalize_eq_kebabBase]
    rw [spec_normalize_eq_kebabBase] at h
    rw [if_neg h]
  · intro name ids h h0
    rw [spec_normalize_eq_kebabBase] at h
    simp only [generate_provider_id, id_search]
    rw [h, if_neg h0]

/-- Witness for C3's amended theorem at a concrete input. -/
theorem generate_provider_id_matches_spec_witness :
    generate_provider_id "Open AI Mirror" ["open-ai-mirror"]
      = generate_id_spec "Open AI Mirror" ["open-ai-mirror"] :=
  generate_provider_id_matches_spec_algorithm.1 "Open AI Mirror" ["open-ai-mirror"] (by decide)

theorem takeBytes_ascii :
    ∀ (cs : List Char), (∀ c ∈ cs, c.utf8Size = 1) →
      ∀ n, n ≤ cs.length → takeBytes cs n = some (cs.take n) := by
  intro cs
  induction cs with
  | nil =>
    intro _ n hn
    have : n = 0 := Nat.le_zero.mp hn
    subst this
    rfl
  | cons c t ih =>
    intro h n hn
    cases n with
    | zero => rfl
    | succ m =>
      have hc : c.utf8Size = 1 := h c (List.mem_cons_self c t)
      simp only [takeBytes, hc]
      rw [if_pos (by omega)]
      simp only [Nat.add_sub_cancel]
      rw [ih (fun d hd => h d (List.mem_cons_of_mem c hd)) m (by simpa using hn)]
      rfl

theorem dropBytes_ascii :
    ∀ (cs : List Char), (∀ c ∈ cs, c.utf8Size = 1) →
      ∀ n, n ≤ cs.length → dropBytes cs n = some (cs.drop n) := by
  intro cs
  induction cs with
  | nil =>
    intro _ n hn
    have : n = 0 := Nat.le_zero.mp hn
    subst this
    rfl
  | cons c t ih =>
    intro h n hn
    cases n with
    | zero => rfl
    | succ m =>
      have hc : c.utf8Size = 1 := h c (List.mem_cons_self c t)
      simp only [dropBytes, hc]
      rw [if_pos (by omega)]
      simp only [Nat.add_sub_cancel]
      exact ih (fun d hd => h d (List.mem_cons_of_mem c hd)) m (by simpa using hn)

theorem byteLen_ascii (s : String) (h : ∀ c ∈ s.data, c.utf8Size = 1) :
    byteLen s = s.length := by
  suffices hl : ∀ l : List Char, (∀ c ∈ l, c.utf8Size = 1) →
      (l.map Char.utf8Size).sum = l.length by
    exact hl s.data h
  intro l
  induction l with
  | nil => intro _; rfl
  | cons c t ih =>
    intro hmem
    have hc : c.utf8Size = 1 := hmem c (List.mem_cons_self c t)
    simp only [List.map_cons, List.sum_cons, List.length_cons, hc,
      ih (fun d hd => hmem d (List.mem_cons_of_mem c hd))]
    omega

theorem mask_api_key_ascii_long (key : String) (h : ∀ c ∈ key.data, c.utf8Size = 1)
    (h8 : 8 < key.length) :
    mask_api_key key
      = some ((key.data.take 4).asString ++ "..." ++ (key.data.drop (key.length - 4)).asString) := by
  have hb : byteLen key = key.length := byteLen_ascii key h
  have hdata : key.data.length = key.length := rfl
  unfold mask_api_key
  rw [hb, if_neg (by omega)]
  rw [takeBytes_ascii key.data h 4 (by omega), dropBytes_ascii key.data h (key.length - 4) (by omega)]

/-- C4 (amended): `mask_api_key` measures the secret in UTF-8 bytes, not
characters, and slices bytes.  For secrets all of whose characters are
single-byte (every ASCII secret), the claim holds as stated: length at most
8 gives the fixed placeholder `"***"`; otherwise the result is the first 4
and last 4 characters joined by the fixed separator `"..."`, and the result
depends only on those characters, never on the middle ones. -/
theorem mask_api_key_ascii_behaviour :
    ∀ (key : String), (∀ c ∈ key.data, c.utf8Size = 1) →
      (key.length ≤ 8 → mask_api_key key = some "***") ∧
      (8 < key.length →
        mask_api_key key
          = some ((key.data.take 4).asString ++ "..." ++ (key.data.drop (key.length - 4)).asString)) ∧
      (∀ (key₂ : String), (∀ c ∈ key₂.data, c.utf8Size = 1) →
        8 < key.length → 8 < key₂.length →
        key.data.take 4 = key₂.data.take 4 →
        key.data.drop (key.length - 4) = key₂.data.drop (key₂.length - 4) →
        mask_api_key key = mask_api_key key₂) := by
  intro key h
  refine ⟨?_, ?_, ?_⟩
  · intro h8
    unfold mask_api_key
    rw [byteLen_ascii key h, if_pos h8]
  · intro h8
    exact mask_api_key_ascii_long key h h8
  · intro key₂ h₂ h8 h8₂ ht hd
    rw [mask_api_key_ascii_long key h h8, mask_api_key_ascii_long key₂ h₂ h8₂, ht, hd]

/-- Witness for C4's amended theorem: the spec's own masking vectors,
`mask("1234567")` and `mask("sk-abcdefghij")`. -/
theorem mask_api_key_ascii_witness :
    mask_api_key "1234567" = some "***" ∧ mask_api_key "sk-abcdefghij" = some "sk-a...ghij" := by
  constructor
  · exact (mask_api_key_ascii_behaviour "1234567" (by decide)).1 (by decide)
  · have e := (mask_api_key_ascii_behaviour "sk-abcdefghij" (by decide)).2.1 (by decide)
    rw [e]
    rfl

/-- C4 counterexample: the claim's length is character count, the code's is
byte count.  `"ñbcdefgh"` has 8 characters (the claim requires `"***"`) but
9 bytes, so the code takes the long branch and reveals prefix and suffix;
moreover its visible prefix is the first 4 bytes, only 3 characters. -/
theorem mask_api_key_char_length_cex :
    ("ñbcdefgh".length = 8) ∧ mask_api_key "ñbcdefgh" = some "ñbc...efgh" := by
  constructor
  · rfl
  · rfl

/-- C5: the code is not total over non-ASCII secrets.  `"aaañbbbbb"` has 10
bytes, so the long branch is taken, but byte position 4 falls inside the
two-byte character `'ñ'`: the slice `&key[..4]` panics (modelled as
`none`). -/
theorem mask_api_key_panics_on_multibyte :
    mask_api_key "aaañbbbbb" = none := by
  rfl

/-! ## Helper lemmas about the Claude payload -/

theorem envGet_claude (current : Option JValue) (i : ClaudeInputs) (k : String) :
    envGet (prompt_claude_config current i) k
      = (((claude_env current i).find? (fun p => p.1 == k)).map Prod.snd).bind JValue.asStr := by
  rfl

theorem prompt_model_field_nonblank (env_key : String) (current : Option JValue)
    (input : String) (h : rustTrim input ≠ "") :
    prompt_model_field env_key current input = some (rustTrim input) := by
  unfold prompt_model_field
  rw [if_neg h]

theorem prompt_model_field_blank (env_key : String) (current : Option JValue)
    (input : String) (h : rustTrim input = "") :
    prompt_model_field env_key current input = none := by
  unfold prompt_model_field
  rw [if_pos h]
  cases ((current.bind (fun v => v.get "env")).bind
      (fun e => JValue.get e env_key)).bind JValue.asStr <;> rfl

theorem claude_token_lookup (current : Option JValue) (i : ClaudeInputs) :
    envGet (prompt_claude_config current i) "ANTHROPIC_AUTH_TOKEN"
      = some (rustTrim i.apiKey) := by
  rw [envGet_claude]
  unfold claude_env
  cases hm : i.configModels <;> simp [List.find?, JValue.asStr]

theorem claude_url_lookup (current : Option JValue) (i : ClaudeInputs) :
    envGet (prompt_claude_config current i) "ANTHROPIC_BASE_URL"
      = some (rustTrim i.baseUrl) := by
  rw [envGet_claude]
  unfold claude_env
  cases hm : i.configModels <;> simp [List.find?, JValue.asStr]

theorem claude_model_lookup (current : Option JValue) (i : ClaudeInputs)
    (hm : i.configModels = true) (v : String)
    (hv : prompt_model_field "ANTHROPIC_MODEL" current i.modelInput = some v) :
    envGet (prompt_claude_config current i) "ANTHROPIC_MODEL" = some v := by
  rw [envGet_claude]
  unfold claude_env
  rw [hv]
  simp [hm, optEntry, List.find?, JValue.asStr]

theorem claude_haiku_lookup (current : Option JValue) (i : ClaudeInputs)
    (hm : i.configModels = true) (v : String)
    (hv : prompt_model_field "ANTHROPIC_DEFAULT_HAIKU_MODEL" current i.haikuInput = some v) :
    envGet (prompt_claude_config current i) "ANTHROPIC_DEFAULT_HAIKU_MODEL" = some v := by
  rw [envGet_claude]
  unfold claude_env
  rw [hv]
  cases h1 : prompt_model_field "ANTHROPIC_MODEL" current i.modelInput <;>
    simp [hm, optEntry, List.find?, JValue.asStr]

theorem claude_sonnet_lookup (current : Option JValue) (i : ClaudeInputs)
    (hm : i.configModels = true) (v : String)
    (hv : prompt_model_field "ANTHROPIC_DEFAULT_SONNET_MODEL" current i.sonnetInput = some v) :
    envGet (prompt_claude_config current i) "ANTHROPIC_DEFAULT_SONNET_MODEL" = some v := by
  rw [envGet_claude]
  unfold claude_env
  rw [hv]
  cases h1 : prompt_model_field "ANTHROPIC_MODEL" current i.modelInput <;>
    cases h2 : prompt_model_field "ANTHROPIC_DEFAULT_HAIKU_MODEL" current i.haikuInput <;>
      simp [hm, optEntry, List.find?, JValue.asStr]

theorem claude_opus_lookup (current : Option JValue) (i : ClaudeInputs)
    (hm : i.configModels = true) (v : String)
    (hv : prompt_model_field "ANTHROPIC_DEFAULT_OPUS_MODEL" current i.opusInput = some v) :
    envGet (prompt_claude_config current i) "ANTHROPIC_DEFAULT_OPUS_MODEL" = some v := by
  rw [envGet_claude]
  unfold claude_env
  rw [hv]
  cases h1 : prompt_model_field "ANTHROPIC_MODEL" current i.modelInput <;>
    cases h2 : prompt_model_field "ANTHROPIC_DEFAULT_HAIKU_MODEL" current i.haikuInput <;>
      cases h3 : prompt_model_field "ANTHROPIC_DEFAULT_SONNET_MODEL" current i.sonnetInput <;>
        simp [hm, optEntry, List.find?, JValue.asStr]

theorem optEntry_key (k : String) (o : Option String) (p : String × JValue)
    (hp : p ∈ optEntry k o) : p.1 = k := by
  cases o with
  | none => cases hp
  | some v =>
    rcases List.mem_singleton.mp hp with h
    rw [h]

theorem claude_env_keys_subset (current : Option JValue) (i : ClaudeInputs)
    (p : String × JValue) (hp : p ∈ claude_env current i) : p.1 ∈ claudeEnvKeys := by
  unfold claude_env at hp
  cases hm : i.configModels with
  | false =>
    simp only [hm, Bool.false_eq_true, if_false, List.mem_cons, List.mem_singleton,
      List.not_mem_nil, or_false] at hp
    rcases hp with h | h
    · rw [h]
      show "ANTHROPIC_AUTH_TOKEN" ∈ claudeEnvKeys
      decide
    · rw [h]
      show "ANTHROPIC_BASE_URL" ∈ claudeEnvKeys
      decide
  | true =>
    simp only [hm, if_true, List.append_assoc, List.cons_append, List.nil_append,
      List.mem_cons, List.mem_append] at hp
    rcases hp with h | h | h | h | h | h
    · rw [h]
      show "ANTHROPIC_AUTH_TOKEN" ∈ claudeEnvKeys
      decide
    · rw [h]
      show "ANTHROPIC_BASE_URL" ∈ claudeEnvKeys
      decide
    · rw [optEntry_key _ _ _ h]; decide
    · rw [optEntry_key _ _ _ h]; decide
    · rw [optEntry_key _ _ _ h]; decide
    · rw [optEntry_key _ _ _ h]; decide

theorem claude_other_keys_lookup (current : Option JValue) (i : ClaudeInputs)
    (k : String) (hk : k ∉ claudeEnvKeys) :
    envGet (prompt_claude_config current i) k = none := by
  rw [envGet_claude]
  have hnone : (claude_env current i).find? (fun p => p.1 == k) = none := by
    rw [List.find?_eq_none]
    intro p hp hbeq
    have hkey : p.1 ∈ claudeEnvKeys := claude_env_keys_subset current i p hp
    rw [beq_iff_eq] at hbeq
    rw [hbeq] at hkey
    exact hk hkey
  rw [hnone]
  rfl

/-! ## The claims -/

/-- C1 counterexample: editing `c1_current` with session `c1_inputs`
re-submits the api key and base url unchanged and never touches
`ANTHROPIC_MODEL` (the configure-models step is declined), yet the
resulting payload has dropped the model override: the payload is rebuilt
from the prompted fields, not merged field-by-field. -/
theorem claude_edit_drops_untouched_field_cex :
    envGet c1_current "ANTHROPIC_MODEL" = some "claude-x" ∧
    envGet (prompt_claude_config (some c1_current) c1_inputs) "ANTHROPIC_AUTH_TOKEN"
      = some "sk-tok" ∧
    envGet (prompt_claude_config (some c1_current) c1_inputs) "ANTHROPIC_BASE_URL"
      = some "https://api.example" ∧
    envGet (prompt_claude_config (some c1_current) c1_inputs) "ANTHROPIC_MODEL" = none := by
  refine ⟨rfl, rfl, rfl, rfl⟩

/-- C1 (amended): the Claude edit flow rebuilds `settings_config` from the
prompted fields instead of merging field-by-field.  What is preserved is
exactly the re-prompted set.  When the configure-models step is accepted:
the api key and base url, and each of the four model overrides whose
pre-filled value is re-submitted, come out unchanged, and every env key
outside the six prompted ones is dropped.  When the configure-models step
is declined: every env key other than the always-prompted pair — the four
model overrides included — is dropped from the result, touched or not. -/
theorem claude_edit_merge_behaviour :
    ∀ (current : JValue) (i : ClaudeInputs),
      (i.configModels = true →
        (∀ v, i.apiKey = v → rustTrim v = v →
          envGet (prompt_claude_config (some current) i) "ANTHROPIC_AUTH_TOKEN" = some v) ∧
        (∀ v, i.baseUrl = v → rustTrim v = v →
          envGet (prompt_claude_config (some current) i) "ANTHROPIC_BASE_URL" = some v) ∧
        (∀ v, envGet current "ANTHROPIC_MODEL" = some v → i.modelInput = v →
          rustTrim v = v → v ≠ "" →
          envGet (prompt_claude_config (some current) i) "ANTHROPIC_MODEL" = some v) ∧
        (∀ v, envGet current "ANTHROPIC_DEFAULT_HAIKU_MODEL" = some v → i.haikuInput = v →
          rustTrim v = v → v ≠ "" →
          envGet (prompt_claude_config (some current) i) "ANTHROPIC_DEFAULT_HAIKU_MODEL"
            = some v) ∧
        (∀ v, envGet current "ANTHROPIC_DEFAULT_SONNET_MODEL" = some v → i.sonnetInput = v →
          rustTrim v = v → v ≠ "" →
          envGet (prompt_claude_config (some current) i) "ANTHROPIC_DEFAULT_SONNET_MODEL"
            = some v) ∧
        (∀ v, envGet current "ANTHROPIC_DEFAULT_OPUS_MODEL" = some v → i.opusInput = v →
          rustTrim v = v → v ≠ "" →
          envGet (prompt_claude_config (some current) i) "ANTHROPIC_DEFAULT_OPUS_MODEL"
            = some v) ∧
        (∀ k, k ∉ claudeEnvKeys →
          envGet (prompt_claude_config (some current) i) k = none)) ∧
      (i.configModels = false →
        ∀ k, k ≠ "ANTHROPIC_AUTH_TOKEN" → k ≠ "ANTHROPIC_BASE_URL" →
          envGet (prompt_claude_config (some current) i) k = none) := by
  intro current i
  constructor
  · intro hm
    refine ⟨?_, ?_, ?_, ?_, ?_, ?_, ?_⟩
    · intro v hv ht
      rw [claude_token_lookup, hv, ht]
    · intro v hv ht
      rw [claude_url_lookup, hv, ht]
    · intro v _ hv ht hne
      refine claude_model_lookup (some current) i hm v ?_
      rw [hv, prompt_model_field_nonblank _ _ _ (by rw [ht]; exact hne), ht]
    · intro v _ hv ht hne
      refine claude_haiku_lookup (some current) i hm v ?_
      rw [hv, prompt_model_field_nonblank _ _ _ (by rw [ht]; exact hne), ht]
    · intro v _ hv ht hne
      refine claude_sonnet_lookup (some current) i hm v ?_
      rw [hv, prompt_model_field_nonblank _ _ _ (by rw [ht]; exact hne), ht]
    · intro v _ hv ht hne
      refine claude_opus_lookup (some current) i hm v ?_
      rw [hv, prompt_model_field_nonblank _ _ _ (by rw [ht]; exact hne), ht]
    · intro k hk
      exact claude_other_keys_lookup (some current) i k hk
  · intro hm k hk1 hk2
    rw [envGet_claude]
    have hnone : (claude_env (some current) i).find? (fun p => p.1 == k) = none := by
      unfold claude_env
      simp only [hm, Bool.false_eq_true, if_false]
      rw [List.find?_eq_none]
      intro p hp hbeq
      rw [beq_iff_eq] at hbeq
      rcases List.mem_cons.mp hp with h | h
      · rw [h] at hbeq
        exact hk1 hbeq.symm
      · rcases List.mem_singleton.mp h with h'
        rw [h'] at hbeq
        exact hk2 hbeq.symm
    rw [hnone]
    rfl

/-- Witness for C1's amended theorem: over `c1w_current` with session
`c1w_inputs` (configure-models accepted), the re-submitted model override
and api key come out unchanged and a foreign key is dropped; over
`c1_current` with session `c1_inputs` (configure-models declined), the
stored model override is dropped. -/
theorem claude_edit_merge_witness :
    envGet (prompt_claude_config (some c1w_current) c1w_inputs) "ANTHROPIC_AUTH_TOKEN"
      = some "sk-tok" ∧
    envGet (prompt_claude_config (some c1w_current) c1w_inputs) "ANTHROPIC_MODEL"
      = some "m-default" ∧
    envGet (prompt_claude_config (some c1w_current) c1w_inputs) "OTHER_KEY" = none ∧
    envGet (prompt_claude_config (some c1_current) c1_inputs) "ANTHROPIC_MODEL" = none :=
  ⟨((claude_edit_merge_behaviour c1w_current c1w_inputs).1 rfl).1 "sk-tok" rfl (by decide),
   ((claude_edit_merge_behaviour c1w_current c1w_inputs).1 rfl).2.2.1 "m-default" (by decide)
     rfl (by decide) (by decide),
   ((claude_edit_merge_behaviour c1w_current c1w_inputs).1 rfl).2.2.2.2.2.2 "OTHER_KEY"
     (by decide),
   (claude_edit_merge_behaviour c1_current c1_inputs).2 rfl "ANTHROPIC_MODEL" (by decide)
     (by decide)⟩

/-- C6 counterexample: the stored value of `c6_current`'s model override is
`" x "`; the edit prompt pre-fills it, and re-submitting it unchanged
stores `"x"` — the trimmed form, not the original — so re-submitting the
pre-filled value does not always keep the field unchanged. -/
theorem tri_state_resubmit_cex :
    envGet c6_current "ANTHROPIC_MODEL" = some " x " ∧
    prompt_model_field "ANTHROPIC_MODEL" (some c6_current) " x " = some "x" := by
  refine ⟨rfl, rfl⟩

/-- C6 (amended): every optional tri-state field (model overrides, notes,
website url) maps blank input to an absent field (`none`, and an absent
payload entry), stores non-blank input trimmed, and keeps a re-submitted
pre-filled value unchanged provided that stored value carries no
surrounding whitespace (which holds for every value this flow itself
wrote); a pre-existing value with surrounding whitespace is replaced by its
trimmed form on re-submission. -/
theorem tri_state_field_behaviour :
    ∀ (input cur key nameRaw sortRaw : String) (c : Option JValue),
      rustTrim nameRaw ≠ "" → rustTrim sortRaw = "" →
      (rustTrim input = "" →
        prompt_model_field key c input = none ∧
        optEntry key (prompt_model_field key c input) = [] ∧
        prompt_basic_fields (.ok nameRaw) (.ok input) = .ok (rustTrim nameRaw, none) ∧
        prompt_optional_fields (.ok input) (.ok sortRaw)
          = .ok { notes := none, icon := none, icon_color := none, sort_index := none }) ∧
      (rustTrim input ≠ "" →
        prompt_model_field key c input = some (rustTrim input) ∧
        prompt_basic_fields (.ok nameRaw) (.ok input)
          = .ok (rustTrim nameRaw, some (rustTrim input)) ∧
        prompt_optional_fields (.ok input) (.ok sortRaw)
          = .ok { notes := some (rustTrim input), icon := none, icon_color := none,
                  sort_index := none }) ∧
      (rustTrim cur = cur → cur ≠ "" →
        prompt_model_field key c cur = some cur ∧
        prompt_optional_fields (.ok cur) (.ok sortRaw)
          = .ok { notes := some cur, icon := none, icon_color := none,
                  sort_index := none }) := by
  intro input cur key nameRaw sortRaw c hname hsort
  refine ⟨?_, ?_, ?_⟩
  · intro hbl
    refine ⟨prompt_model_field_blank key c input hbl, ?_, ?_, ?_⟩
    · rw [prompt_model_field_blank key c input hbl]
      rfl
    · unfold prompt_basic_fields
      simp only [map_input_err, Except.mapError]
      rw [if_neg hname, hbl, if_pos rfl]
    · unfold prompt_optional_fields
      simp only [map_input_err, Except.mapError]
      rw [hbl, if_pos rfl, if_pos hsort]
  · intro hnb
    refine ⟨prompt_model_field_nonblank key c input hnb, ?_, ?_⟩
    · unfold prompt_basic_fields
      simp only [map_input_err, Except.mapError]
      rw [if_neg hname, if_neg hnb]
    · unfold prompt_optional_fields
      simp only [map_input_err, Except.mapError]
      rw [if_neg hnb, if_pos hsort]
  · intro hst hne
    have hnb : rustTrim cur ≠ "" := by rw [hst]; exact hne
    refine ⟨?_, ?_⟩
    · rw [prompt_model_field_nonblank key c cur hnb, hst]
    · unfold prompt_optional_fields
      simp only [map_input_err, Except.mapError]
      rw [if_neg hnb, if_pos hsort, hst]

/-- Witness for C6's amended theorem at concrete inputs: blank clears,
non-blank is stored trimmed, and a trimmed pre-filled value re-submitted is
kept. -/
theorem tri_state_field_witness :
    prompt_model_field "ANTHROPIC_MODEL" none "" = none ∧
    prompt_model_field "ANTHROPIC_MODEL" none "  claude-x " = some "claude-x" ∧
    prompt_model_field "ANTHROPIC_MODEL" none "claude-x" = some "claude-x" :=
  ⟨((tri_state_field_behaviour "" "claude-x" "ANTHROPIC_MODEL" "n" "" none (by decide)
      (by decide)).1 (by decide)).1,
   ((tri_state_field_behaviour "  claude-x " "claude-x" "ANTHROPIC_MODEL" "n" "" none
      (by decide) (by decide)).2.1 (by decide)).1,
   ((tri_state_field_behaviour "" "claude-x" "ANTHROPIC_MODEL" "n" "" none (by decide)
      (by decide)).2.2 (by decide) (by decide)).1⟩

/-- C7: the four cases of the Gemini auth-mode detection rule: no key and
an absent or empty env mapping is delegated-OAuth; a key with a base url
containing the `"packycode"` marker is hosted-gateway; a key without the
marker is generic; no key but a non-empty env mapping is indeterminate
(`none`), which the caller's starting-cursor computation maps to the
hosted-gateway option (index 1) as a presentation default. -/
theorem detect_unfold_some (value : Option JValue) (env : JValue)
    (hv : value.bind (fun v => v.get "env") = some env) :
    detect_gemini_auth_type value =
      (if (JValue.get env "GEMINI_API_KEY").isSome then
        if (((JValue.get env "GOOGLE_GEMINI_BASE_URL").bind JValue.asStr).map
              (fun s => strContains s "packycode")).getD false then some "packycode"
        else some "generic"
      else if (env.asObj.map List.isEmpty).getD true then some "oauth" else none) := by
  unfold detect_gemini_auth_type
  rw [hv]

theorem detect_unfold_none (value : Option JValue)
    (hv : value.bind (fun v => v.get "env") = none) :
    detect_gemini_auth_type value = some "oauth" := by
  unfold detect_gemini_auth_type
  rw [hv]

theorem detect_gemini_auth_type_cases :
    ∀ (value : Option JValue),
      (gemini_key_present value = false →
        (value.bind (fun v => v.get "env") = none ∨
         value.bind (fun v => v.get "env") = some (JValue.obj [])) →
        detect_gemini_auth_type value = some "oauth") ∧
      (∀ s, gemini_key_present value = true → gemini_base_url value = some s →
        strContains s "packycode" = true →
        detect_gemini_auth_type value = some "packycode") ∧
      (gemini_key_present value = true →
        ((gemini_base_url value).map (fun s => strContains s "packycode")).getD false
          = false →
        detect_gemini_auth_type value = some "generic") ∧
      (∀ p fs, gemini_key_present value = false →
        value.bind (fun v => v.get "env") = some (JValue.obj (p :: fs)) →
        detect_gemini_auth_type value = none ∧
        gemini_default_index (detect_gemini_auth_type value) = 1) := by
  intro value
  refine ⟨?_, ?_, ?_, ?_⟩
  · intro _ henv
    rcases henv with h | h
    · exact detect_unfold_none value h
    · rw [detect_unfold_some value (JValue.obj []) h]
      simp [JValue.get, JValue.asObj, List.find?]
  · intro s hk hurl hcont
    cases hv : value.bind (fun v => v.get "env") with
    | none =>
      unfold gemini_key_present at hk
      rw [hv] at hk
      simp at hk
    | some env =>
      rw [detect_unfold_some value env hv]
      unfold gemini_key_present at hk
      rw [hv] at hk
      simp only [Option.some_bind] at hk
      unfold gemini_base_url at hurl
      rw [hv] at hurl
      simp only [Option.some_bind] at hurl
      rw [if_pos hk, hurl]
      simp [hcont]
  · intro hk hnc
    cases hv : value.bind (fun v => v.get "env") with
    | none =>
      unfold gemini_key_present at hk
      rw [hv] at hk
      simp at hk
    | some env =>
      rw [detect_unfold_some value env hv]
      unfold gemini_key_present at hk
      rw [hv] at hk
      simp only [Option.some_bind] at hk
      unfold gemini_base_url at hnc
      rw [hv] at hnc
      simp only [Option.some_bind] at hnc
      rw [if_pos hk, if_neg]
      rw [hnc]
      simp
  · intro p fs hk henv
    have hdet : detect_gemini_auth_type value = none := by
      rw [detect_unfold_some value (JValue.obj (p :: fs)) henv]
      unfold gemini_key_present at hk
      rw [henv] at hk
      simp only [Option.some_bind] at hk
      rw [if_neg (by rw [hk]; exact Bool.false_ne_true)]
      simp [JValue.asObj]
    refine ⟨hdet, ?_⟩
    rw [hdet]
    rfl

/-- Witness for C7 at concrete payloads: `c7_value` (key plus marker url)
detects as hosted-gateway, and an indeterminate payload defaults to
index 1. -/
theorem detect_gemini_auth_type_witness :
    detect_gemini_auth_type c7_value = some "packycode" ∧
    gemini_default_index (detect_gemini_auth_type
      (some (JValue.obj [("env", JValue.obj [("OTHER", JValue.str "x")])]))) = 1 :=
  ⟨(detect_gemini_auth_type_cases c7_value).2.1 "https://packycode.com/api" (by decide)
      (by decide) (by decide),
   ((detect_gemini_auth_type_cases
      (some (JValue.obj [("env", JValue.obj [("OTHER", JValue.str "x")])]))).2.2.2
      ("OTHER", JValue.str "x") [] (by decide) rfl).2⟩

/-- C8 counterexample: `"18446744073709551616"` (`2^64`, a non-negative
integer written in decimal) is rejected with `InvalidInput`: the parse goes
through `usize` and enforces its upper bound. -/
theorem sort_index_overflow_cex :
    ("18446744073709551616").data.all Char.isDigit = true ∧
    prompt_optional_fields (.ok "") (.ok "18446744073709551616")
      = .error (.invalidInput invalid_sort_index_number) := by
  refine ⟨by decide, rfl⟩

/-- C8 (amended): a blank sort index is `None` and a non-blank one must
parse as a `usize`, else the operation fails with `InvalidInput`; the parse
accepts exactly an optional leading `'+'` followed by decimal digits whose
value is below `2^64` (the `usize` bound on a 64-bit target) — so an upper
bound is enforced by the integer type, though none is added beyond it. -/
theorem sort_index_parse_behaviour :
    ∀ (notesRaw sortRaw : String),
      (rustTrim sortRaw = "" →
        prompt_optional_fields (.ok notesRaw) (.ok sortRaw)
          = .ok { notes := if rustTrim notesRaw = "" then none else some (rustTrim notesRaw),
                  icon := none, icon_color := none, sort_index := none }) ∧
      (∀ n, rustTrim sortRaw ≠ "" → rust_parse_usize (rustTrim sortRaw) = some n →
        prompt_optional_fields (.ok notesRaw) (.ok sortRaw)
          = .ok { notes := if rustTrim notesRaw = "" then none else some (rustTrim notesRaw),
                  icon := none, icon_color := none, sort_index := some n }) ∧
      (rustTrim sortRaw ≠ "" → rust_parse_usize (rustTrim sortRaw) = none →
        prompt_optional_fields (.ok notesRaw) (.ok sortRaw)
          = .error (.invalidInput invalid_sort_index_number)) ∧
      (∀ t : String, t.data ≠ [] → t.data.all Char.isDigit = true →
        (decimal_value t.data < 2 ^ 64 → rust_parse_usize t = some (decimal_value t.data)) ∧
        (2 ^ 64 ≤ decimal_value t.data → rust_parse_usize t = none)) := by
  intro notesRaw sortRaw
  refine ⟨?_, ?_, ?_, ?_⟩
  · intro hbl
    unfold prompt_optional_fields
    simp only [map_input_err, Except.mapError]
    rw [if_pos hbl]
  · intro n hnb hp
    unfold prompt_optional_fields
    simp only [map_input_err, Except.mapError]
    rw [if_neg hnb, hp]
  · intro hnb hp
    unfold prompt_optional_fields
    simp only [map_input_err, Except.mapError]
    rw [if_neg hnb, hp]
  · intro t hne hdig
    have hhead : ¬ (t.data.head? = some '+') := by
      cases ht : t.data with
      | nil => exact absurd ht hne
      | cons c rest =>
        rw [ht] at hdig
        simp only [List.all_cons, Bool.and_eq_true] at hdig
        simp only [List.head?]
        intro hplus
        have hc : c = '+' := by injection hplus
        rw [hc] at hdig
        exact absurd hdig.1 (by decide)
    have hempty : t.data.isEmpty = false := by
      cases ht : t.data with
      | nil => exact absurd ht hne
      | cons c rest => rfl
    constructor
    · intro hlt
      unfold rust_parse_usize
      rw [if_neg hhead]
      simp only [hempty, hdig, Bool.false_eq_true, eq_self_iff_true, if_true, if_false]
      rw [if_pos hlt]
    · intro hge
      unfold rust_parse_usize
      rw [if_neg hhead]
      simp only [hempty, hdig, Bool.false_eq_true, eq_self_iff_true, if_true, if_false]
      rw [if_neg (by omega)]

/-- Witness for C8's amended theorem at concrete inputs: blank gives
`None`, `"42"` parses, and `"4x"` is rejected. -/
theorem sort_index_parse_witness :
    prompt_optional_fields (.ok "note") (.ok " ")
      = .ok { notes := some "note", icon := none, icon_color := none, sort_index := none } ∧
    prompt_optional_fields (.ok "note") (.ok "42")
      = .ok { notes := some "note", icon := none, icon_color := none,
              sort_index := some 42 } ∧
    prompt_optional_fields (.ok "note") (.ok "4x")
      = .error (.invalidInput invalid_sort_index_number) := by
  refine ⟨?_, ?_, ?_⟩
  · have e := (sort_index_parse_behaviour "note" " ").1 (by decide)
    rw [e]
    rfl
  · have e := (sort_index_parse_behaviour "note" "42").2.1 42 (by decide) (by decide)
    rw [e]
    rfl
  · exact (sort_index_parse_behaviour "note" "4x").2.2.1 (by decide) (by decide)

/-- C9 counterexample: `prompt_claude_config` performs no emptiness check on
the required Claude fields; a session submitting a blank auth token and a
whitespace-only base url succeeds and stores both as empty strings instead
of failing with `InvalidInput`. -/
theorem claude_empty_required_accepted_cex :
    envGet (prompt_claude_config none c9_inputs) "ANTHROPIC_AUTH_TOKEN" = some "" ∧
    envGet (prompt_claude_config none c9_inputs) "ANTHROPIC_BASE_URL" = some "" := by
  refine ⟨rfl, rfl⟩

/-- C9 (amended): only the profile name is validated: a blank (or
whitespace-only) name fails with `InvalidInput` before any further prompt;
the Claude `auth_token` and `base_url` are not validated — whatever is
submitted, blank included, is stored trimmed in the payload. -/
theorem required_field_validation :
    ∀ (nameRaw : String) (websiteRes : Except InquireError String) (i : ClaudeInputs)
      (c : Option JValue),
      (rustTrim nameRaw = "" →
        prompt_basic_fields (.ok nameRaw) websiteRes
          = .error (.invalidInput provider_name_empty_error)) ∧
      envGet (prompt_claude_config c i) "ANTHROPIC_AUTH_TOKEN" = some (rustTrim i.apiKey) ∧
      envGet (prompt_claude_config c i) "ANTHROPIC_BASE_URL" = some (rustTrim i.baseUrl) := by
  intro nameRaw websiteRes i c
  refine ⟨?_, claude_token_lookup c i, claude_url_lookup c i⟩
  intro hbl
  unfold prompt_basic_fields
  simp only [map_input_err, Except.mapError]
  rw [hbl, if_pos rfl]

/-- Witness for C9's amended theorem: a whitespace-only name fails with
`InvalidInput`, and a blank auth token is stored as the empty string. -/
theorem required_field_validation_witness :
    prompt_basic_fields (.ok "   ") (.ok "https://x.example")
      = .error (.invalidInput provider_name_empty_error) ∧
    envGet (prompt_claude_config none c9_inputs) "ANTHROPIC_AUTH_TOKEN" = some "" :=
  ⟨(required_field_validation "   " (.ok "https://x.example") c9_inputs none).1 (by decide),
   (required_field_validation "x" (.ok "") c9_inputs none).2.1⟩

/-- C10 counterexample: in `prompt_basic_fields` (and every other prompt of
`provider_input.rs`), `.map_err(|e| AppError::Message(…))` sends a
cancelled prompt into the error channel instead of the success-with-nothing
outcome the claim requires at every prompt boundary. -/
theorem prompt_cancel_collapsed_cex :
    prompt_basic_fields (.error InquireError.operationCanceled) (.ok "")
      = .error (.message (input_failed_error (inquireErrMsg InquireError.operationCanceled))) := by
  rfl

/-- C10 (amended): the three-way result (success-with-value / cancelled /
failed) holds at the prompts routed through `handle_inquire`
(`interactive/utils.rs`): success wraps in `some`, cancellation and
interruption yield `Ok none`, and only other errors reach the error
channel.  The provider add/edit prompts of `provider_input.rs` do not use
it: they map every prompt error, cancellation included, to
`AppError::Message`. -/
theorem cancellation_handling :
    ∀ (v m : String) (websiteRes : Except InquireError String) (e : InquireError),
      (handle_inquire (Except.ok v) = Except.ok (some v)) ∧
      (handle_inquire (α := String) (Except.error InquireError.operationCanceled)
        = Except.ok none) ∧
      (handle_inquire (α := String) (Except.error InquireError.operationInterrupted)
        = Except.ok none) ∧
      (handle_inquire (α := String) (Except.error (InquireError.other m))
        = Except.error (AppError.message m)) ∧
      (prompt_basic_fields (Except.error e) websiteRes
        = Except.error (AppError.message (input_failed_error (inquireErrMsg e)))) := by
  intro v m websiteRes e
  refine ⟨rfl, rfl, rfl, rfl, ?_⟩
  cases e <;> rfl

end CCSwitch
